import Mathlib

/-!
# Verification of the `value-trait` access / mutation protocol

Shallow embedding of `src/lib.rs` of the `value-trait` crate.  The crate
defines traits (`ValueAccess`, `Value`, `Mutable`) whose *default methods*
derive a large accessor surface from a small set of primitive extractors
(`as_bool`, `as_i64`, `as_u64`, `as_f64`, `as_str`, `as_array`,
`as_object`, and the mutable views `as_object_mut` / `as_array_mut`).

We embed the trait generically: a record `ValueAccessPrims` holds the
primitive extractors an implementation must supply, and each default
method of the trait becomes a Lean function taking such a record.  The
theorems are then quantified over every implementation, exactly like the
Rust default methods.  Rust's `&mut self` methods are embedded by explicit
state passing: each mutating operation returns its result paired with the
value after the call; the mutable views `as_object_mut` / `as_array_mut`
are embedded as a view/update lens (obtaining the view does not itself
mutate the value).

The `Array` and `Object` contract traits live in `array.rs` / `object.rs`,
which are not part of the sources; their operations appear here as further
fields of the records, with signatures and semantics modelled from the
spec (§6 "Array contract" / "Object contract").
-/

namespace ValueTrait

/-- Model of Rust `f64` values: a finite value carried as an exact
rational, the two infinities, and NaN.  Rounding of conversions into the
float grid is abstracted (finite values are exact rationals); the claims
under verification depend only on comparisons and on which constructor a
value has, never on rounding. -/
inductive F64 where
  | finite (q : ℚ)
  | posInf
  | negInf
  | nan
deriving DecidableEq

/-- IEEE-754 `<=` on our `f64` model: any comparison with NaN is false,
`-inf <= x` and `x <= +inf` for non-NaN `x`, and finite values compare as
rationals. -/
def F64.le : F64 → F64 → Bool
  | .nan, _ => false
  | _, .nan => false
  | .negInf, _ => true
  | _, .posInf => true
  | .finite a, .finite b => decide (a ≤ b)
  | .finite _, .negInf => false
  | .posInf, _ => false

/-- Model of Rust `f32` values produced by the `u as f32` cast in
`as_f32`.  The cast is guarded so that `u` is always within the finite
`f32` range; the rounding step of the cast is abstracted and the source
`f64` value is carried unchanged. -/
structure F32 where
  val : F64
deriving DecidableEq

/-- `f64::from(std::f32::MAX)`: the largest finite `f32`,
`(2^24 - 1) * 2^104`, converted losslessly to `f64`. -/
def f32MaxQ : ℚ := 340282346638528859811704183484516925440

/-- `f64::from(std::f32::MAX)` as an `F64` value. -/
def f32MaxD : F64 := .finite f32MaxQ

/-- `f64::from(std::f32::MIN)` (`= -f32::MAX`) as an `F64` value. -/
def f32MinD : F64 := .finite (-f32MaxQ)

/-- The `u as f32` cast of `as_f32` (rounding abstracted, see `F32`). -/
def F64.toF32 (u : F64) : F32 := ⟨u⟩

/-- Rust `u as f64` for `u : u128` in `cast_f64` (value kept exact;
the possible precision loss of the cast is abstracted, the claims only
inspect presence and provenance of the result). -/
def natToF64 (n : ℕ) : F64 := .finite n

/-- Rust `i as f64` for `i : i128` in `cast_f64` (value kept exact, as in
`natToF64`). -/
def intToF64 (i : ℤ) : F64 := .finite i

/-! ## Rust checked integer conversions

`<x>.try_into().ok()` in the source resolves to the core-library
`TryFrom` impls.  Narrowing conversions are range-checked; the widening
conversions `i64 → i128` and `u64 → u128` are infallible, and
`u64 → usize` is infallible on the 64-bit targets the crate builds for
(usize is 64 bits wide), which we model by the always-true bound
`n < 2^64` inherited from the `u64` argument type. -/

/-- `i64::try_into::<i32>().ok()`. -/
def tryInto_i64_i32 (u : ℤ) : Option ℤ :=
  if -(2 ^ 31) ≤ u ∧ u ≤ 2 ^ 31 - 1 then some u else none

/-- `i64::try_into::<i16>().ok()`. -/
def tryInto_i64_i16 (u : ℤ) : Option ℤ :=
  if -(2 ^ 15) ≤ u ∧ u ≤ 2 ^ 15 - 1 then some u else none

/-- `i64::try_into::<i8>().ok()`. -/
def tryInto_i64_i8 (u : ℤ) : Option ℤ :=
  if -(2 ^ 7) ≤ u ∧ u ≤ 2 ^ 7 - 1 then some u else none

/-- `i64::try_into::<i128>().ok()`: widening, infallible. -/
def tryInto_i64_i128 (u : ℤ) : Option ℤ := some u

/-- `u64::try_into::<u32>().ok()`. -/
def tryInto_u64_u32 (u : ℕ) : Option ℕ :=
  if u ≤ 2 ^ 32 - 1 then some u else none

/-- `u64::try_into::<u16>().ok()`. -/
def tryInto_u64_u16 (u : ℕ) : Option ℕ :=
  if u ≤ 2 ^ 16 - 1 then some u else none

/-- `u64::try_into::<u8>().ok()`. -/
def tryInto_u64_u8 (u : ℕ) : Option ℕ :=
  if u ≤ 2 ^ 8 - 1 then some u else none

/-- `u64::try_into::<usize>().ok()` on a 64-bit target. -/
def tryInto_u64_usize (u : ℕ) : Option ℕ :=
  if u ≤ 2 ^ 64 - 1 then some u else none

/-- `u64::try_into::<u128>().ok()`: widening, infallible. -/
def tryInto_u64_u128 (u : ℕ) : Option ℕ := some u

/-- The error taxonomy of the crate (`enum AccessError`). -/
inductive AccessError where
  | NotAnObject
  | NotAnArray
deriving DecidableEq

/-- The primitive methods an implementor of `ValueAccess` supplies:
the seven required extractors of the trait, plus the `get` operations of
the `Array` / `Object` contracts the default methods call through the
returned references.  `V` is the value type (we identify `Self` and
`Target`, as every concrete backend of the crate does), `K` the object
key type, `O` / `A` the object / array representation types.

The `objGet` / `arrGet` fields are modelled from the spec: the `Object`
and `Array` contract traits (`object.rs`, `array.rs`) are not part of the
sources; §6 gives their signatures `get(key-like) -> optional Target` and
`get(index) -> optional Target`. -/
structure ValueAccessPrims (V K O A : Type) where
  as_bool : V → Option Bool
  as_i64 : V → Option ℤ
  as_u64 : V → Option ℕ
  as_f64 : V → Option F64
  as_str : V → Option String
  as_array : V → Option A
  as_object : V → Option O
  objGet : O → K → Option V
  arrGet : A → ℕ → Option V

namespace ValueAccess

variable {V K O A : Type}

/-- `ValueAccess::get` (default method):
`self.as_object().and_then(|a| a.get(k))`. -/
def get (p : ValueAccessPrims V K O A) (v : V) (k : K) : Option V :=
  (p.as_object v).bind fun o => p.objGet o k

/-- `ValueAccess::contains_key` (default method):
`self.as_object().and_then(|a| a.get(k)).is_some()`. -/
def contains_key (p : ValueAccessPrims V K O A) (v : V) (k : K) : Bool :=
  ((p.as_object v).bind fun o => p.objGet o k).isSome

/-- `ValueAccess::get_idx` (default method):
`self.as_array().and_then(|a| a.get(i))`. -/
def get_idx (p : ValueAccessPrims V K O A) (v : V) (i : ℕ) : Option V :=
  (p.as_array v).bind fun a => p.arrGet a i

/-- `ValueAccess::as_i128` (default method):
`self.as_i64().and_then(|u| u.try_into().ok())`. -/
def as_i128 (p : ValueAccessPrims V K O A) (v : V) : Option ℤ :=
  (p.as_i64 v).bind tryInto_i64_i128

/-- `ValueAccess::as_i32` (default method). -/
def as_i32 (p : ValueAccessPrims V K O A) (v : V) : Option ℤ :=
  (p.as_i64 v).bind tryInto_i64_i32

/-- `ValueAccess::as_i16` (default method). -/
def as_i16 (p : ValueAccessPrims V K O A) (v : V) : Option ℤ :=
  (p.as_i64 v).bind tryInto_i64_i16

/-- `ValueAccess::as_i8` (default method). -/
def as_i8 (p : ValueAccessPrims V K O A) (v : V) : Option ℤ :=
  (p.as_i64 v).bind tryInto_i64_i8

/-- `ValueAccess::as_u128` (default method):
`self.as_u64().and_then(|u| u.try_into().ok())`. -/
def as_u128 (p : ValueAccessPrims V K O A) (v : V) : Option ℕ :=
  (p.as_u64 v).bind tryInto_u64_u128

/-- `ValueAccess::as_usize` (default method). -/
def as_usize (p : ValueAccessPrims V K O A) (v : V) : Option ℕ :=
  (p.as_u64 v).bind tryInto_u64_usize

/-- `ValueAccess::as_u32` (default method). -/
def as_u32 (p : ValueAccessPrims V K O A) (v : V) : Option ℕ :=
  (p.as_u64 v).bind tryInto_u64_u32

/-- `ValueAccess::as_u16` (default method). -/
def as_u16 (p : ValueAccessPrims V K O A) (v : V) : Option ℕ :=
  (p.as_u64 v).bind tryInto_u64_u16

/-- `ValueAccess::as_u8` (default method). -/
def as_u8 (p : ValueAccessPrims V K O A) (v : V) : Option ℕ :=
  (p.as_u64 v).bind tryInto_u64_u8

/-- `ValueAccess::cast_f64` (default method):
```
if let Some(f) = self.as_f64() { Some(f) }
else if let Some(u) = self.as_u128() { Some(u as f64) }
else { self.as_i128().map(|i| i as f64) }
``` -/
def cast_f64 (p : ValueAccessPrims V K O A) (v : V) : Option F64 :=
  match p.as_f64 v with
  | some f => some f
  | none =>
    match as_u128 p v with
    | some u => some (natToF64 u)
    | none => (as_i128 p v).map intToF64

/-- `ValueAccess::as_f32` (default method):
```
self.as_f64().and_then(|u| {
    if u <= f64::from(std::f32::MAX) && u >= f64::from(std::f32::MIN) {
        Some(u as f32)
    } else { None }
})
``` -/
def as_f32 (p : ValueAccessPrims V K O A) (v : V) : Option F32 :=
  (p.as_f64 v).bind fun u =>
    if F64.le u f32MaxD && F64.le f32MinD u then some u.toF32 else none

end ValueAccess

/-! ## The `Value` trait's derived boolean predicates -/

namespace Value

variable {V K O A : Type}

/-- `Value::is_f64` (default method): `self.as_f64().is_some()`. -/
def is_f64 (p : ValueAccessPrims V K O A) (v : V) : Bool :=
  (p.as_f64 v).isSome

/-- `Value::is_float` (default method): `self.is_f64()`. -/
def is_float (p : ValueAccessPrims V K O A) (v : V) : Bool :=
  is_f64 p v

/-- `Value::is_i64` (default method): `self.as_i64().is_some()`. -/
def is_i64 (p : ValueAccessPrims V K O A) (v : V) : Bool :=
  (p.as_i64 v).isSome

/-- `Value::is_u64` (default method): `self.as_u64().is_some()`. -/
def is_u64 (p : ValueAccessPrims V K O A) (v : V) : Bool :=
  (p.as_u64 v).isSome

/-- `Value::is_i128` (default method): `self.as_i128().is_some()`. -/
def is_i128 (p : ValueAccessPrims V K O A) (v : V) : Bool :=
  (ValueAccess.as_i128 p v).isSome

/-- `Value::is_u128` (default method): `self.as_u128().is_some()`. -/
def is_u128 (p : ValueAccessPrims V K O A) (v : V) : Bool :=
  (ValueAccess.as_u128 p v).isSome

/-- `Value::is_integer` (default method): `self.is_i128() || self.is_u128()`. -/
def is_integer (p : ValueAccessPrims V K O A) (v : V) : Bool :=
  is_i128 p v || is_u128 p v

/-- `Value::is_number` (default method): `self.is_float() || self.is_integer()`. -/
def is_number (p : ValueAccessPrims V K O A) (v : V) : Bool :=
  is_float p v || is_integer p v

end Value

/-! ## The `Mutable` trait

Rust's `&mut self` methods are embedded by explicit state passing: each
operation returns its result paired with the value after the call.  The
mutable views `as_object_mut` / `as_array_mut` (required methods of the
trait, returning `Option<&mut Self::Object>` / `Option<&mut Self::Array>`)
are embedded as a lens: a pure view of the underlying object / array
representation plus a write-back function putting a mutated representation
back into the value.  Obtaining the view does not itself mutate the value,
which is how every `&mut`-projection implementation of the trait behaves. -/

/-- The primitive methods an implementor of `Mutable` supplies beyond
`ValueAccess`, plus the mutating operations of the `Object` / `Array`
contracts called through the returned mutable references.

The `objInsert`, `objRemove`, `arrPush`, `arrPop` fields are modelled
from the spec: the `Object` / `Array` contract traits are not part of
the sources; §6 gives `insert(Key, Target) -> optional previous Target`,
`remove(key-like) -> optional removed Target`, `push(Target)`,
`pop() -> optional Target`.  Each returns its result paired with the
mapping / sequence after the call. -/
structure MutablePrims (V K O A : Type) extends ValueAccessPrims V K O A where
  as_object_mut : V → Option O
  set_object : V → O → V
  as_array_mut : V → Option A
  set_array : V → A → V
  objInsert : O → K → V → Option V × O
  objRemove : O → K → Option V × O
  arrPush : A → V → A
  arrPop : A → Option V × A

namespace Mutable

variable {V K O A : Type}

/-- `Mutable::insert` (default method):
`self.as_object_mut().ok_or(AccessError::NotAnObject).map(|o| o.insert(k.into(), v.into()))`. -/
def insert (m : MutablePrims V K O A) (v : V) (k : K) (t : V) :
    Except AccessError (Option V) × V :=
  match m.as_object_mut v with
  | none => (.error .NotAnObject, v)
  | some o =>
    let r := m.objInsert o k t
    (.ok r.1, m.set_object v r.2)

/-- `Mutable::remove` (default method):
`self.as_object_mut().ok_or(AccessError::NotAnObject).map(|o| o.remove(k))`. -/
def remove (m : MutablePrims V K O A) (v : V) (k : K) :
    Except AccessError (Option V) × V :=
  match m.as_object_mut v with
  | none => (.error .NotAnObject, v)
  | some o =>
    let r := m.objRemove o k
    (.ok r.1, m.set_object v r.2)

/-- `Mutable::push` (default method):
`self.as_array_mut().ok_or(AccessError::NotAnArray).map(|o| o.push(v.into()))`. -/
def push (m : MutablePrims V K O A) (v : V) (t : V) :
    Except AccessError Unit × V :=
  match m.as_array_mut v with
  | none => (.error .NotAnArray, v)
  | some a => (.ok (), m.set_array v (m.arrPush a t))

/-- `Mutable::pop` (default method):
`self.as_array_mut().ok_or(AccessError::NotAnArray).map(Array::pop)`. -/
def pop (m : MutablePrims V K O A) (v : V) :
    Except AccessError (Option V) × V :=
  match m.as_array_mut v with
  | none => (.error .NotAnArray, v)
  | some a =>
    let r := m.arrPop a
    (.ok r.1, m.set_array v r.2)

/-- Rust `Result::ok`: drop the error of an `Except` into an `Option`. -/
def resultOk {α : Type} : Except AccessError α → Option α
  | .ok a => some a
  | .error _ => none

/-- `Mutable::try_insert` (default method): `self.insert(k, v).ok().flatten()`. -/
def try_insert (m : MutablePrims V K O A) (v : V) (k : K) (t : V) :
    Option V × V :=
  let r := insert m v k t
  ((resultOk r.1).join, r.2)

/-- `Mutable::try_remove` (default method): `self.remove(k).ok().flatten()`. -/
def try_remove (m : MutablePrims V K O A) (v : V) (k : K) :
    Option V × V :=
  let r := remove m v k
  ((resultOk r.1).join, r.2)

/-- `Mutable::try_push` (default method): `let _ = self.push(v);` — the
result is discarded, only the state effect remains. -/
def try_push (m : MutablePrims V K O A) (v : V) (t : V) : V :=
  (push m v t).2

/-- `Mutable::try_pop` (default method): `self.pop().ok().flatten()`. -/
def try_pop (m : MutablePrims V K O A) (v : V) :
    Option V × V :=
  let r := pop m v
  ((resultOk r.1).join, r.2)

end Mutable

/-! ## A concrete implementation

The crate's concrete value backends (owned / borrowed trees) are external
collaborators (spec §1), so we build one small owned-tree instance to
exercise the generic development on concrete inputs.  Modelled from the
spec: §3 (one classification at a time, keys unique), §4.3 (the three
numeric primitives report the stored number where representable, cf. the
§8 example where a value built from `u8` 200 has `as_u64() == Some(200)`
and `as_i8() == None` by range, so the signed primitive also reports a
stored unsigned number when it fits), §6 (`Array` / `Object` contract
semantics, objects as key-unique association lists preserving insertion
order). -/

/-- A concrete JSON-like owned value tree. -/
inductive JsonValue where
  | null
  | bool (b : Bool)
  | i64 (i : ℤ)
  | u64 (n : ℕ)
  | f64 (f : F64)
  | str (s : String)
  | arr (xs : List JsonValue)
  | obj (es : List (String × JsonValue))

/-- `as_i64` of the concrete backend: a stored signed number, or a stored
unsigned number when it fits in `i64`. -/
def JsonValue.j_as_i64 : JsonValue → Option ℤ
  | .i64 i => some i
  | .u64 n => if (n : ℤ) ≤ 2 ^ 63 - 1 then some (n : ℤ) else none
  | _ => none

/-- `as_u64` of the concrete backend: a stored unsigned number, or a
stored signed number when it is non-negative. -/
def JsonValue.j_as_u64 : JsonValue → Option ℕ
  | .u64 n => some n
  | .i64 i => if 0 ≤ i then some i.toNat else none
  | _ => none

/-- `as_f64` of the concrete backend. -/
def JsonValue.j_as_f64 : JsonValue → Option F64
  | .f64 f => some f
  | _ => none

/-- `as_bool` of the concrete backend. -/
def JsonValue.j_as_bool : JsonValue → Option Bool
  | .bool b => some b
  | _ => none

/-- `as_str` of the concrete backend. -/
def JsonValue.j_as_str : JsonValue → Option String
  | .str s => some s
  | _ => none

/-- `as_array` of the concrete backend. -/
def JsonValue.j_as_array : JsonValue → Option (List JsonValue)
  | .arr xs => some xs
  | _ => none

/-- `as_object` of the concrete backend. -/
def JsonValue.j_as_object : JsonValue → Option (List (String × JsonValue))
  | .obj es => some es
  | _ => none

/-- `Object::get` on the association-list representation. -/
def assocGet (es : List (String × JsonValue)) (k : String) : Option JsonValue :=
  (es.find? fun e => e.1 == k).map (·.2)

/-- `Object::insert` on the association-list representation: replaces the
value under an existing key returning the previous value, otherwise
appends. -/
def assocInsert (es : List (String × JsonValue)) (k : String) (t : JsonValue) :
    Option JsonValue × List (String × JsonValue) :=
  match es.find? (fun e => e.1 == k) with
  | some e => (some e.2, es.map fun e2 => if e2.1 == k then (k, t) else e2)
  | none => (none, es ++ [(k, t)])

/-- `Object::remove` on the association-list representation. -/
def assocRemove (es : List (String × JsonValue)) (k : String) :
    Option JsonValue × List (String × JsonValue) :=
  ((es.find? fun e => e.1 == k).map (·.2), es.filter fun e => !(e.1 == k))

/-- The `ValueAccess` primitives of the concrete backend. -/
def jsonPrims : ValueAccessPrims JsonValue String
    (List (String × JsonValue)) (List JsonValue) where
  as_bool := JsonValue.j_as_bool
  as_i64 := JsonValue.j_as_i64
  as_u64 := JsonValue.j_as_u64
  as_f64 := JsonValue.j_as_f64
  as_str := JsonValue.j_as_str
  as_array := JsonValue.j_as_array
  as_object := JsonValue.j_as_object
  objGet := assocGet
  arrGet := fun a i => a.get? i

/-- The `Mutable` primitives of the concrete backend: the mutable views
project the stored object / array representation, and write-back replaces
it. -/
def jsonMut : MutablePrims JsonValue String
    (List (String × JsonValue)) (List JsonValue) where
  toValueAccessPrims := jsonPrims
  as_object_mut := JsonValue.j_as_object
  set_object := fun v o =>
    match v with
    | .obj _ => .obj o
    | w => w
  as_array_mut := JsonValue.j_as_array
  set_array := fun v a =>
    match v with
    | .arr _ => .arr a
    | w => w
  objInsert := assocInsert
  objRemove := assocRemove
  arrPush := fun a t => a ++ [t]
  arrPop := fun a => (a.getLast?, a.dropLast)

/-! ## Helper lemmas -/

/-- A range-guarded checked conversion bound over an optional input
succeeds exactly when the input is present and satisfies the range
predicate. -/
theorem guard_bind_eq_some {α : Type} (x : Option α) (P : α → Prop)
    [DecidablePred P] (n : α) :
    (x.bind fun u => if P u then some u else none) = some n ↔
      (x = some n ∧ P n) := by
  cases x with
  | none => simp
  | some a =>
    show (if P a then some a else none) = some n ↔ (some a = some n ∧ P n)
    constructor
    · intro h
      by_cases hp : P a
      · rw [if_pos hp] at h
        injection h with h
        subst h
        exact ⟨rfl, hp⟩
      · rw [if_neg hp] at h
        exact Option.noConfusion h
    · rintro ⟨he, hp⟩
      injection he with he
      subst he
      rw [if_pos hp]

section Claims

variable {V K O A : Type}

/-- C2: for every implementation, every value, every key and every index,
`get` and `get_idx` are total (they are Lean functions into `Option`, so
totality is by construction) and return `None` — not an error — whenever
the value is not an object (resp. not an array) or the key (resp. index)
is absent. -/
theorem c2_get_get_idx_total (p : ValueAccessPrims V K O A) (v : V) (k : K)
    (i : ℕ) :
    (p.as_object v = none → ValueAccess.get p v k = none) ∧
    (∀ o, p.as_object v = some o → p.objGet o k = none →
      ValueAccess.get p v k = none) ∧
    (p.as_array v = none → ValueAccess.get_idx p v i = none) ∧
    (∀ a, p.as_array v = some a → p.arrGet a i = none →
      ValueAccess.get_idx p v i = none) := by
  refine ⟨fun h => ?_, fun o ho hk => ?_, fun h => ?_, fun a ha hi => ?_⟩ <;>
    simp [ValueAccess.get, ValueAccess.get_idx, *]

/-- Witness for C2 on the concrete backend: a boolean value is neither an
object nor an array, so both lookups are empty; on an object, a missing
key is empty; on an array, an out-of-range index is empty. -/
theorem c2_witness :
    ValueAccess.get jsonPrims (.bool true) "k" = none ∧
    ValueAccess.get_idx jsonPrims (.bool true) 0 = none ∧
    ValueAccess.get jsonPrims (.obj [("a", .null)]) "k" = none ∧
    ValueAccess.get_idx jsonPrims (.arr [.null]) 7 = none := by
  refine ⟨(c2_get_get_idx_total jsonPrims (.bool true) "k" 0).1 rfl,
    (c2_get_get_idx_total jsonPrims (.bool true) "k" 0).2.2.1 rfl,
    (c2_get_get_idx_total jsonPrims (.obj [("a", .null)]) "k" 0).2.1
      [("a", .null)] rfl rfl,
    (c2_get_get_idx_total jsonPrims (.arr [.null]) "k" 7).2.2.2
      [.null] rfl rfl⟩

/-- C8: for every implementation, value and key, `contains_key` agrees
with `get(...).is_some()`; in particular it is `false` on a non-object
value and for a missing key. -/
theorem c8_contains_key_agrees_get (p : ValueAccessPrims V K O A) (v : V)
    (k : K) :
    (ValueAccess.contains_key p v k = (ValueAccess.get p v k).isSome) ∧
    (p.as_object v = none → ValueAccess.contains_key p v k = false) ∧
    (∀ o, p.as_object v = some o → p.objGet o k = none →
      ValueAccess.contains_key p v k = false) := by
  refine ⟨rfl, fun h => ?_, fun o ho hk => ?_⟩ <;>
    simp [ValueAccess.contains_key, *]

/-- Witness for C8 on the concrete backend. -/
theorem c8_witness :
    ValueAccess.contains_key jsonPrims (.i64 3) "k" = false ∧
    ValueAccess.contains_key jsonPrims (.obj [("a", .null)]) "k" = false := by
  exact ⟨(c8_contains_key_agrees_get jsonPrims (.i64 3) "k").2.1 rfl,
    (c8_contains_key_agrees_get jsonPrims (.obj [("a", .null)]) "k").2.2
      [("a", .null)] rfl rfl⟩

/-- C4: for every implementation and value, a successful 64-bit primitive
widens losslessly: `as_i64 = Some x` gives `as_i128 = Some x`, and
`as_u64 = Some x` gives `as_u128 = Some x`. -/
theorem c4_widening_never_fails (p : ValueAccessPrims V K O A) (v : V) :
    (∀ x : ℤ, p.as_i64 v = some x → ValueAccess.as_i128 p v = some x) ∧
    (∀ x : ℕ, p.as_u64 v = some x → ValueAccess.as_u128 p v = some x) := by
  refine ⟨fun x h => ?_, fun x h => ?_⟩ <;>
    simp [ValueAccess.as_i128, ValueAccess.as_u128, tryInto_i64_i128,
      tryInto_u64_u128, h]

/-- Witness for C4 on the concrete backend. -/
theorem c4_witness :
    ValueAccess.as_i128 jsonPrims (.i64 (-7)) = some (-7) ∧
    ValueAccess.as_u128 jsonPrims (.u64 (2 ^ 64 - 1)) = some (2 ^ 64 - 1) := by
  exact ⟨(c4_widening_never_fails jsonPrims (.i64 (-7))).1 (-7) rfl,
    (c4_widening_never_fails jsonPrims (.u64 (2 ^ 64 - 1))).2 _ rfl⟩

/-- C7: for every implementation and value, `is_integer` equals
`is_i128 || is_u128`, `is_number` equals `is_float || is_integer`, and —
the 128-bit extractors being derived from the 64-bit primitives —
`is_integer` holds exactly when `as_i64` or `as_u64` is present. -/
theorem c7_is_integer_is_number (p : ValueAccessPrims V K O A) (v : V) :
    Value.is_integer p v = (Value.is_i128 p v || Value.is_u128 p v) ∧
    Value.is_number p v = (Value.is_float p v || Value.is_integer p v) ∧
    (Value.is_integer p v = true ↔
      ((p.as_i64 v).isSome = true ∨ (p.as_u64 v).isSome = true)) := by
  refine ⟨rfl, rfl, ?_⟩
  cases hi : p.as_i64 v <;> cases hu : p.as_u64 v <;>
    simp [Value.is_integer, Value.is_i128, Value.is_u128,
      ValueAccess.as_i128, ValueAccess.as_u128, tryInto_i64_i128,
      tryInto_u64_u128, hi, hu]

/-- Witness for C7 on the concrete backend: an unsigned number is an
integer. -/
theorem c7_witness : Value.is_integer jsonPrims (.u64 5) = true :=
  (c7_is_integer_is_number jsonPrims (.u64 5)).2.2.mpr (Or.inr rfl)

/-- C3: for every implementation and value, each narrower integer
extractor succeeds with `n` exactly when the corresponding 64-bit
primitive yields `n` and `n` lies in the narrower type's range; it is
absent (never wrapped or truncated) otherwise. -/
theorem c3_narrowing_checked (p : ValueAccessPrims V K O A) (v : V) :
    (∀ n : ℤ, ValueAccess.as_i32 p v = some n ↔
      (p.as_i64 v = some n ∧ -(2 ^ 31) ≤ n ∧ n ≤ 2 ^ 31 - 1)) ∧
    (∀ n : ℤ, ValueAccess.as_i16 p v = some n ↔
      (p.as_i64 v = some n ∧ -(2 ^ 15) ≤ n ∧ n ≤ 2 ^ 15 - 1)) ∧
    (∀ n : ℤ, ValueAccess.as_i8 p v = some n ↔
      (p.as_i64 v = some n ∧ -(2 ^ 7) ≤ n ∧ n ≤ 2 ^ 7 - 1)) ∧
    (∀ n : ℕ, ValueAccess.as_u32 p v = some n ↔
      (p.as_u64 v = some n ∧ n ≤ 2 ^ 32 - 1)) ∧
    (∀ n : ℕ, ValueAccess.as_u16 p v = some n ↔
      (p.as_u64 v = some n ∧ n ≤ 2 ^ 16 - 1)) ∧
    (∀ n : ℕ, ValueAccess.as_u8 p v = some n ↔
      (p.as_u64 v = some n ∧ n ≤ 2 ^ 8 - 1)) ∧
    (∀ n : ℕ, ValueAccess.as_usize p v = some n ↔
      (p.as_u64 v = some n ∧ n ≤ 2 ^ 64 - 1)) := by
  refine ⟨fun n => ?_, fun n => ?_, fun n => ?_, fun n => ?_, fun n => ?_,
    fun n => ?_, fun n => ?_⟩ <;>
    exact guard_bind_eq_some _ _ n

/-- Witness for C3 on the concrete backend: 200 fits `u8` but exceeds
`i8`'s range. -/
theorem c3_witness :
    ValueAccess.as_u8 jsonPrims (.u64 200) = some 200 ∧
    ValueAccess.as_i32 jsonPrims (.i64 (-5)) = some (-5) := by
  exact ⟨((c3_narrowing_checked jsonPrims (.u64 200)).2.2.2.2.2.1 200).mpr
      ⟨rfl, by decide⟩,
    ((c3_narrowing_checked jsonPrims (.i64 (-5))).1 (-5)).mpr
      ⟨rfl, by decide, by decide⟩⟩

/-- C5: for every implementation and value, `cast_f64` prefers the stored
float, then the unsigned wide integer, then the signed wide integer, and
is absent exactly when all three are. -/
theorem c5_cast_f64_priority (p : ValueAccessPrims V K O A) (v : V) :
    (∀ f, p.as_f64 v = some f → ValueAccess.cast_f64 p v = some f) ∧
    (∀ u, p.as_f64 v = none → ValueAccess.as_u128 p v = some u →
      ValueAccess.cast_f64 p v = some (natToF64 u)) ∧
    (∀ i, p.as_f64 v = none → ValueAccess.as_u128 p v = none →
      ValueAccess.as_i128 p v = some i →
      ValueAccess.cast_f64 p v = some (intToF64 i)) ∧
    (ValueAccess.cast_f64 p v = none ↔
      (p.as_f64 v = none ∧ ValueAccess.as_u128 p v = none ∧
        ValueAccess.as_i128 p v = none)) := by
  refine ⟨fun f hf => ?_, fun u hf hu => ?_, fun i hf hu hi => ?_, ?_⟩
  · simp [ValueAccess.cast_f64, hf]
  · simp [ValueAccess.cast_f64, hf, hu]
  · simp [ValueAccess.cast_f64, hf, hu, hi]
  · cases hf : p.as_f64 v <;> cases hu : ValueAccess.as_u128 p v <;>
      cases hi : ValueAccess.as_i128 p v <;>
      simp [ValueAccess.cast_f64, hf, hu, hi]

/-- Witness for C5 on the concrete backend: a float is returned as is, an
unsigned and a signed integer are converted, a string has no numeric
form. -/
theorem c5_witness :
    ValueAccess.cast_f64 jsonPrims (.f64 (.finite 3)) = some (.finite 3) ∧
    ValueAccess.cast_f64 jsonPrims (.u64 5) = some (natToF64 5) ∧
    ValueAccess.cast_f64 jsonPrims (.i64 (-2)) = some (intToF64 (-2)) ∧
    ValueAccess.cast_f64 jsonPrims (.str "x") = none := by
  refine ⟨(c5_cast_f64_priority jsonPrims (.f64 (.finite 3))).1 _ rfl,
    (c5_cast_f64_priority jsonPrims (.u64 5)).2.1 5 rfl rfl,
    (c5_cast_f64_priority jsonPrims (.i64 (-2))).2.2.1 (-2) rfl (by decide)
      rfl,
    (c5_cast_f64_priority jsonPrims (.str "x")).2.2.2.mpr ⟨rfl, rfl, rfl⟩⟩

/-- The finite range of `f32` (`[f32::MIN, f32::MAX]`) as a predicate on
our `f64` model: a finite value within the closed rational interval;
infinities and NaN lie outside it. -/
def F64.inF32Range : F64 → Prop
  | .finite q => -f32MaxQ ≤ q ∧ q ≤ f32MaxQ
  | _ => False

instance (u : F64) : Decidable u.inF32Range :=
  match u with
  | .finite q => inferInstanceAs (Decidable (-f32MaxQ ≤ q ∧ q ≤ f32MaxQ))
  | .posInf => inferInstanceAs (Decidable False)
  | .negInf => inferInstanceAs (Decidable False)
  | .nan => inferInstanceAs (Decidable False)

/-- The boolean guard of `as_f32` (IEEE comparisons against
`f64::from(f32::MAX)` / `f64::from(f32::MIN)`) holds exactly on the
finite `f32` range. -/
theorem f32_guard_iff_inF32Range (u : F64) :
    (F64.le u f32MaxD && F64.le f32MinD u) = true ↔ u.inF32Range := by
  cases u <;>
    simp [F64.le, f32MaxD, f32MinD, F64.inF32Range, and_comm]

/-- C6: for every implementation and value on which `as_f64` yields `u`,
`as_f32` yields the cast of `u` when `u` lies in the finite `f32` range
and is absent when it does not (no saturation, no wrapping; infinities
and NaN are also absent); `as_f32` is absent when `as_f64` is. -/
theorem c6_as_f32_range_checked (p : ValueAccessPrims V K O A) (v : V) :
    (∀ u, p.as_f64 v = some u →
      (u.inF32Range → ValueAccess.as_f32 p v = some u.toF32) ∧
      (¬u.inF32Range → ValueAccess.as_f32 p v = none)) ∧
    (p.as_f64 v = none → ValueAccess.as_f32 p v = none) := by
  refine ⟨fun u hu => ⟨fun hr => ?_, fun hr => ?_⟩, fun h => ?_⟩
  · have hg := (f32_guard_iff_inF32Range u).mpr hr
    unfold ValueAccess.as_f32
    rw [hu]
    show (if F64.le u f32MaxD && F64.le f32MinD u then some u.toF32
      else none) = some u.toF32
    rw [if_pos hg]
  · have hg : ¬((F64.le u f32MaxD && F64.le f32MinD u) = true) := by
      intro hg2
      exact absurd ((f32_guard_iff_inF32Range u).mp hg2) hr
    unfold ValueAccess.as_f32
    rw [hu]
    show (if F64.le u f32MaxD && F64.le f32MinD u then some u.toF32
      else none) = none
    rw [if_neg hg]
  · simp [ValueAccess.as_f32, h]

/-- Witness for C6 on the concrete backend: `1.0` is in range, `2^128`
and NaN are not, and a non-float value has no `f32` form. -/
theorem c6_witness :
    ValueAccess.as_f32 jsonPrims (.f64 (.finite 1)) =
      some (F64.toF32 (.finite 1)) ∧
    ValueAccess.as_f32 jsonPrims (.f64 (.finite (2 ^ 128))) = none ∧
    ValueAccess.as_f32 jsonPrims (.f64 .nan) = none ∧
    ValueAccess.as_f32 jsonPrims (.bool true) = none := by
  refine ⟨((c6_as_f32_range_checked jsonPrims (.f64 (.finite 1))).1 _
      rfl).1 (by norm_num [F64.inF32Range, f32MaxQ]),
    ((c6_as_f32_range_checked jsonPrims (.f64 (.finite (2 ^ 128)))).1 _
      rfl).2 (by norm_num [F64.inF32Range, f32MaxQ]),
    ((c6_as_f32_range_checked jsonPrims (.f64 .nan)).1 _ rfl).2
      (by simp [F64.inF32Range]),
    (c6_as_f32_range_checked jsonPrims (.bool true)).2 rfl⟩

/-- C1: for every implementation, value, key and element, the
shape-checked mutation entry points report `NotAnObject` (`insert`,
`remove`) / `NotAnArray` (`push`, `pop`) when the required mutable view
is unobtainable, and the value after the call is exactly the value
before it. -/
theorem c1_mutation_shape_errors (m : MutablePrims V K O A) (v : V) (k : K)
    (t : V) :
    (m.as_object_mut v = none →
      Mutable.insert m v k t = (.error .NotAnObject, v) ∧
      Mutable.remove m v k = (.error .NotAnObject, v)) ∧
    (m.as_array_mut v = none →
      Mutable.push m v t = (.error .NotAnArray, v) ∧
      Mutable.pop m v = (.error .NotAnArray, v)) := by
  refine ⟨fun h => ⟨?_, ?_⟩, fun h => ⟨?_, ?_⟩⟩ <;>
    simp [Mutable.insert, Mutable.remove, Mutable.push, Mutable.pop, h]

/-- Witness for C1 on the concrete backend: a number is not an object, an
object is not an array; the values come back unchanged. -/
theorem c1_witness :
    Mutable.insert jsonMut (.i64 1) "k" .null =
      (.error .NotAnObject, .i64 1) ∧
    Mutable.remove jsonMut (.i64 1) "k" = (.error .NotAnObject, .i64 1) ∧
    Mutable.push jsonMut (.obj []) .null = (.error .NotAnArray, .obj []) ∧
    Mutable.pop jsonMut (.obj []) = (.error .NotAnArray, .obj []) := by
  refine ⟨((c1_mutation_shape_errors jsonMut (.i64 1) "k" .null).1 rfl).1,
    ((c1_mutation_shape_errors jsonMut (.i64 1) "k" .null).1 rfl).2,
    ((c1_mutation_shape_errors jsonMut (.obj []) "k" .null).2 rfl).1,
    ((c1_mutation_shape_errors jsonMut (.obj []) "k" .null).2 rfl).2⟩

/-- C9: for every implementation, value, key and element, the convenience
forms equal their checked counterparts with the error swallowed
(`.ok().flatten()`; `try_push` discards the result entirely), and on a
shape mismatch they report absence (resp. nothing) and leave the value
unchanged. -/
theorem c9_try_forms (m : MutablePrims V K O A) (v : V) (k : K) (t : V) :
    Mutable.try_insert m v k t =
      ((Mutable.resultOk (Mutable.insert m v k t).1).join,
        (Mutable.insert m v k t).2) ∧
    Mutable.try_remove m v k =
      ((Mutable.resultOk (Mutable.remove m v k).1).join,
        (Mutable.remove m v k).2) ∧
    Mutable.try_pop m v =
      ((Mutable.resultOk (Mutable.pop m v).1).join, (Mutable.pop m v).2) ∧
    Mutable.try_push m v t = (Mutable.push m v t).2 ∧
    (m.as_object_mut v = none →
      Mutable.try_insert m v k t = (none, v) ∧
      Mutable.try_remove m v k = (none, v)) ∧
    (m.as_array_mut v = none →
      Mutable.try_pop m v = (none, v) ∧ Mutable.try_push m v t = v) := by
  refine ⟨rfl, rfl, rfl, rfl, fun h => ⟨?_, ?_⟩, fun h => ⟨?_, ?_⟩⟩ <;>
    simp [Mutable.try_insert, Mutable.try_remove, Mutable.try_pop,
      Mutable.try_push, Mutable.insert, Mutable.remove, Mutable.pop,
      Mutable.push, Mutable.resultOk, Option.join, h]

/-- Witness for C9 on the concrete backend: on a number (neither object
nor array) every convenience form reports absence and leaves the value
unchanged. -/
theorem c9_witness :
    Mutable.try_insert jsonMut (.u64 0) "k" .null = (none, .u64 0) ∧
    Mutable.try_remove jsonMut (.u64 0) "k" = (none, .u64 0) ∧
    Mutable.try_pop jsonMut (.u64 0) = (none, .u64 0) ∧
    Mutable.try_push jsonMut (.u64 0) .null = .u64 0 := by
  refine ⟨((c9_try_forms jsonMut (.u64 0) "k" .null).2.2.2.2.1 rfl).1,
    ((c9_try_forms jsonMut (.u64 0) "k" .null).2.2.2.2.1 rfl).2,
    ((c9_try_forms jsonMut (.u64 0) "k" .null).2.2.2.2.2 rfl).1,
    ((c9_try_forms jsonMut (.u64 0) "k" .null).2.2.2.2.2 rfl).2⟩

/-- C10: each wide extractor depends only on its own-signedness 64-bit
primitive: equal `as_i64` (resp. `as_u64`) results give equal `as_i128`
(resp. `as_u128`) results across any two implementations and values; a
value whose `as_u64` is a number above `i64::MAX` while `as_i64` is
absent has `as_i128` absent although the number fits `i128`; and on the
concrete backend a value whose `as_i64` is negative has `as_u128`
absent. -/
theorem c10_wide_extractors_one_sided (p p2 : ValueAccessPrims V K O A)
    (v : V) (w : V) :
    (p.as_i64 v = p2.as_i64 w →
      ValueAccess.as_i128 p v = ValueAccess.as_i128 p2 w) ∧
    (p.as_u64 v = p2.as_u64 w →
      ValueAccess.as_u128 p v = ValueAccess.as_u128 p2 w) ∧
    (∀ n : ℕ, p.as_u64 v = some n → 2 ^ 63 - 1 < (n : ℤ) →
      p.as_i64 v = none → ValueAccess.as_i128 p v = none) ∧
    (∀ u : JsonValue, ∀ i : ℤ, jsonPrims.as_i64 u = some i → i < 0 →
      ValueAccess.as_u128 jsonPrims u = none) := by
  refine ⟨fun h => ?_, fun h => ?_, fun n hn hbig hi => ?_,
    fun u i h hneg => ?_⟩
  · simp [ValueAccess.as_i128, h]
  · simp [ValueAccess.as_u128, h]
  · simp [ValueAccess.as_i128, hi]
  · have h2 : JsonValue.j_as_i64 u = some i := h
    cases u <;> simp [JsonValue.j_as_i64] at h2
    case i64 j =>
      subst h2
      have hj : ¬(0 ≤ j) := not_le.mpr hneg
      simp [ValueAccess.as_u128, jsonPrims, JsonValue.j_as_u64,
        tryInto_u64_u128, hj]
    case u64 n =>
      omega

/-- Witness for C10 on the concrete backend: `2^63` is only unsigned, so
`as_i128` is absent; `-5` is negative, so `as_u128` is absent; and equal
64-bit primitives give equal wide results across two distinct values. -/
theorem c10_witness :
    ValueAccess.as_i128 jsonPrims (.u64 (2 ^ 63)) = none ∧
    ValueAccess.as_u128 jsonPrims (.i64 (-5)) = none ∧
    ValueAccess.as_i128 jsonPrims (.i64 3) =
      ValueAccess.as_i128 jsonPrims (.u64 3) ∧
    ValueAccess.as_u128 jsonPrims (.i64 3) =
      ValueAccess.as_u128 jsonPrims (.u64 3) := by
  refine ⟨(c10_wide_extractors_one_sided jsonPrims jsonPrims
      (.u64 (2 ^ 63)) (.u64 (2 ^ 63))).2.2.1 (2 ^ 63) rfl (by decide)
      (by decide),
    (c10_wide_extractors_one_sided jsonPrims jsonPrims (.u64 0)
      (.u64 0)).2.2.2 (.i64 (-5)) (-5) rfl (by decide),
    (c10_wide_extractors_one_sided jsonPrims jsonPrims (.i64 3)
      (.u64 3)).1 (by decide),
    (c10_wide_extractors_one_sided jsonPrims jsonPrims (.i64 3)
      (.u64 3)).2.1 (by decide)⟩

end Claims

end ValueTrait
